import Mathlib

/-!
Shallow embedding of the billing and login-redirect core of the
MemberManagement repository: the tier catalog (alumni/fields/tier.py),
the payments views (payments/views.py) and the login-redirect validator
of custom_auth (modelled from the spec; the view code is not part of the
sources given, only its tests are).
-/

namespace TierField

/- Tier codes, from alumni/fields/tier.py. -/

def STARTER : String := "st"

def CONTRIBUTOR : String := "co"

def PATRON : String := "pa"

/-- Configuration values read from MemberManagement.settings at import time
(abstract configuration inputs, per the spec's configuration surface). -/
structure StripeSettings where
  STRIPE_CONTRIBUTOR_PRODUCT_ID : String
  STRIPE_PATRON_PRODUCT_ID : String
  STRIPE_STARTER_PRODUCT_ID : String
deriving DecidableEq

/-- The STRIPE_ID_TO_TIER dict literal of TierField, kept as the ordered
key/value bindings of the Python dict display: three legacy identifiers
followed by the three configured product identifiers. In a Python dict
display a later binding of the same key overrides an earlier one. -/
def STRIPE_ID_TO_TIER (cfg : StripeSettings) : List (String × String) :=
  [("contributor-membership", CONTRIBUTOR),
   ("patron-membership", PATRON),
   ("starter-membership", STARTER),
   (cfg.STRIPE_CONTRIBUTOR_PRODUCT_ID, CONTRIBUTOR),
   (cfg.STRIPE_PATRON_PRODUCT_ID, PATRON),
   (cfg.STRIPE_STARTER_PRODUCT_ID, STARTER)]

/-- Python dict construction followed by dict.get with a default: folding the
bindings left to right, a later binding of a key overrides an earlier one,
and a key bound nowhere yields the default. -/
def dictGet (pairs : List (String × String)) (key dflt : String) : String :=
  pairs.foldl (fun acc p => if p.1 == key then p.2 else acc) dflt

/-- TierField.get_tier_from_stripe_id: STRIPE_ID_TO_TIER.get(stripe_id,
"Unknown"). Total by construction, mirroring dict.get never raising. -/
def get_tier_from_stripe_id (cfg : StripeSettings) (stripe_id : String) : String :=
  dictGet (STRIPE_ID_TO_TIER cfg) stripe_id "Unknown"

end TierField

/-! ## Payments table formatting (payments/views.py, PaymentsTableMixin) -/

/-- Renders amount / 100 with exactly two decimal places, the value that
Python produces for a minor-unit (cent) amount with the percent-format
0.2f applied to amount / 100 (exact on cent amounts in range). -/
def formatCents (amount : Nat) : String :=
  toString (amount / 100) ++ "." ++
    (if amount % 100 < 10 then "0" else "") ++ toString (amount % 100)

/-- PaymentsTableMixin.format_total. The euro branch of the source file
literally contains the byte sequence C3 A2 E2 80 9A C2 AC — the euro sign
twice UTF-8 encoded, which decodes to the three characters below — so the
embedded suffix reproduces those exact characters. Python raising is
modelled as Except.error carrying the exception message. -/
def format_total (amount : Nat) (cur : String) : Except String String :=
  if cur == "eur" then Except.ok (formatCents amount ++ " â‚¬")
  else if cur == "usd" then Except.ok (formatCents amount ++ " $")
  else Except.error ("unknown currency " ++ cur)

structure Plan where
  name : String
deriving DecidableEq

/-- One invoice line as format_description reads it: an optional description,
a line type, a plan name, a billing period (seconds since epoch) and a
quantity. -/
structure InvoiceLine where
  description : Option String
  type : String
  plan : Plan
  period_start : Nat
  period_end : Nat
  quantity : Nat
deriving DecidableEq

/-- PaymentsTableMixin.format_description. Date rendering
(format_datetime, which defers to Django locale formats) is abstracted as
the function argument fmtDate. Python raising is modelled as Except.error. -/
def format_description (fmtDate : Nat → String) (line : InvoiceLine) :
    Except String String :=
  match line.description with
  | some d => Except.ok d
  | none =>
    if line.type == "subscription" then
      Except.ok (toString line.quantity ++ " x " ++ line.plan.name ++ " (" ++
        fmtDate line.period_start ++ " - " ++ fmtDate line.period_end ++ ")")
    else
      Except.error "Non-subscription without description"

/-! ## Webhook ingestion (payments/views.py, stripe_webhook) -/

/-- One row of the PaymentIntent table: the provider intent identifier
(unique key) and the opaque stored snapshot. -/
structure StoredPaymentIntent where
  stripe_id : String
  data : String
deriving DecidableEq

/-- The nested payment-intent object of a provider event. -/
structure PaymentIntentObject where
  id : String
  payload : String
deriving DecidableEq

/-- A verified provider event: its type string and the nested object. -/
structure StripeEvent where
  type : String
  object : PaymentIntentObject
deriving DecidableEq

/-- Python str.startswith on the underlying character lists. -/
def listStartsWith : List Char → List Char → Bool
  | _, [] => true
  | [], _ :: _ => false
  | c :: cs, d :: ds => c == d && listStartsWith cs ds

def strStartsWith (s p : String) : Bool :=
  listStartsWith s.toList p.toList

/-- PaymentIntent.objects.update_or_create keyed by stripe_id: update the
data of every row with that key if one exists, else insert a fresh row. -/
def update_or_create (store : List StoredPaymentIntent) (pid : String)
    (d : String) : List StoredPaymentIntent :=
  if store.any (fun r => r.stripe_id == pid) then
    store.map (fun r => if r.stripe_id == pid then { r with data := d } else r)
  else
    store ++ [{ stripe_id := pid, data := d }]

/-- stripe_webhook. The adapter call make_stripe_event is abstracted by its
outcome (an event or an error), and stripewrapper's snapshot function
(not among the given sources) by the function argument piToDict. The
result is the HTTP status code together with the PaymentIntent table. -/
def stripe_webhook (store : List StoredPaymentIntent)
    (event : Except String StripeEvent)
    (piToDict : PaymentIntentObject → String) :
    Nat × List StoredPaymentIntent :=
  match event with
  | Except.error _ => (400, store)
  | Except.ok e =>
    if strStartsWith e.type "payment_intent." then
      (200, update_or_create store e.object.id (piToDict e.object))
    else
      (200, store)

/-- Number of stored rows carrying a given intent identifier. -/
def countId (store : List StoredPaymentIntent) (pid : String) : Nat :=
  store.countP (fun r => r.stripe_id == pid)

/-! ## Subscription reconciliation (payments/views.py, SubscribeView) -/

/-- One SubscriptionInformation row: the owning alumni, the window start and
end timestamps (either nullable at the database level) and the tier. -/
structure SubscriptionInformation where
  member : Nat
  start : Option Int
  end_ : Option Int
  tier : String
deriving DecidableEq

/-- The Django queryset filter start__lte=now, end__gte=now used by
should_setup_component on the locally stored rows: an SQL comparison on a
NULL column never matches, so rows with a null start or a null end are
excluded. -/
def djangoWindowFilter (now : Int) (s : SubscriptionInformation) : Bool :=
  match s.start, s.end_ with
  | some st, some en => decide (st ≤ now) && decide (now ≤ en)
  | _, _ => false

/-- The post-sync re-evaluation of should_setup_component: start is not
None and start ≤ now and (end is None or end ≥ now). -/
def syncedActive (now : Int) (s : SubscriptionInformation) : Bool :=
  match s.start with
  | none => false
  | some st =>
    decide (st ≤ now) &&
      (match s.end_ with
       | none => true
       | some en => decide (now ≤ en))

/-- The spec's notion of an active subscription: the current time lies in
[start, end] inclusive, or end is null and start ≤ now. -/
def specActive (now : Int) (s : SubscriptionInformation) : Bool :=
  match s.start, s.end_ with
  | some st, some en => decide (st ≤ now) && decide (now ≤ en)
  | some st, none => decide (st ≤ now)
  | none, _ => false

/-- SubscribeView.should_setup_component. The stored rows of the current
alumni are subs; SubscriptionInformation.sync_from_stripe (defined in
payments/models.py, not among the given sources) is abstracted by its
returned value syncResult. The second component counts how many provider
sync calls the run makes. -/
def should_setup_component (subs : List SubscriptionInformation) (now : Int)
    (syncResult : Option SubscriptionInformation) : Bool × Nat :=
  if subs.any (djangoWindowFilter now) then
    (false, 0)
  else
    match syncResult with
    | none => (true, 1)
    | some s => if syncedActive now s then (false, 1) else (true, 1)

/-! ## Tier selection (payments/views.py, SignupView.form_valid) -/

/-- One MembershipInformation row as form_valid writes it: the owning
alumni, the selected tier and the provider customer identifier. -/
structure MembershipInformation where
  member : Nat
  tier : String
  customer : Option String
deriving DecidableEq

/-- The outbound provider interactions the payments views can make. -/
inductive ProviderCall where
  | createCustomer
  | createCheckoutSession
deriving DecidableEq

/-- The local database state form_valid touches. -/
structure SignupState where
  memberships : List MembershipInformation
  subscriptions : List SubscriptionInformation
deriving DecidableEq

/-- Modelled from the spec: SubscriptionInformation.create_starter_subscription
lives in payments/models.py, which is not among the given sources. Per the
spec, starter-tier selection synthesizes an active subscription record
directly upon tier selection, bypassing the payment provider: its window
starts now and is open-ended (end null). -/
def create_starter_subscription (alumni : Nat) (now : Int) :
    SubscriptionInformation :=
  { member := alumni, start := some now, end_ := none, tier := TierField.STARTER }

/-- The observable outcome of one SignupView.form_valid run: the returned
instance (None on error), the non-field errors attached to the form, the
resulting local state and the provider API calls made. -/
structure SignupOutcome where
  result : Option MembershipInformation
  formErrors : List String
  state : SignupState
  providerCalls : List ProviderCall
deriving DecidableEq

/-- The fixed error text form_valid attaches on a provider error. -/
def providerErrorMessage : String :=
  "Something went wrong when talking to our payment service provider. Please try again later or contact support. "

/-- SignupView.form_valid. stripewrapper.create_customer is abstracted by
its returned (customer, err) pair; the call itself is recorded in
providerCalls. On error the generic message is attached and nothing is
saved; otherwise the membership row is saved and, for the starter tier, a
starter subscription is created. -/
def form_valid (st : SignupState) (alumni : Nat) (tier : String) (now : Int)
    (createCustomerResult : Option String × Option String) : SignupOutcome :=
  match createCustomerResult with
  | (_, some _) =>
    { result := none
      formErrors := [providerErrorMessage]
      state := st
      providerCalls := [ProviderCall.createCustomer] }
  | (customer, none) =>
    let inst : MembershipInformation :=
      { member := alumni, tier := tier, customer := customer }
    let st1 : SignupState := { st with memberships := st.memberships ++ [inst] }
    if tier == TierField.STARTER then
      { result := some inst
        formErrors := []
        state := { st1 with
          subscriptions :=
            st1.subscriptions ++ [create_starter_subscription alumni now] }
        providerCalls := [ProviderCall.createCustomer] }
    else
      { result := some inst
        formErrors := []
        state := st1
        providerCalls := [ProviderCall.createCustomer] }

/-! ## Login-redirect validation (custom_auth) -/

/-- A candidate redirect target after resolution: its scheme and host when
it carries any, and its path. -/
structure ParsedTarget where
  scheme : Option String
  host : Option String
  path : String
deriving DecidableEq

/-- Splits a character list at the first occurrence of the three characters
colon slash slash, returning the part before and the part after, or none
when no such occurrence exists. -/
def splitSchemeAux : List Char → Option (List Char × List Char)
  | [] => none
  | c :: rest =>
    match c, rest with
    | ':', '/' :: '/' :: tail => some ([], tail)
    | _, _ =>
      match splitSchemeAux rest with
      | some (sch, tail) => some (c :: sch, tail)
      | none => none

/-- Modelled from the spec: resolution of a candidate redirect target. A
string without a scheme separator is a bare path carrying no scheme and no
host; otherwise the scheme is the part before the separator and the host
extends from the separator to the first slash. -/
def parseTarget (s : String) : ParsedTarget :=
  match splitSchemeAux s.toList with
  | none => { scheme := none, host := none, path := s }
  | some (sch, tail) =>
    let hostChars := tail.takeWhile (fun c => c ≠ '/')
    { scheme := some (String.mk sch)
      host := some (String.mk hostChars)
      path := String.mk (tail.drop hostChars.length) }

/-- Modelled from the spec: the post-login redirect validator of
custom_auth.views.email_token_login (custom_auth/views.py is not among the
given sources; only its tests are). An absent or empty next parameter
yields the configured default; a bare path is used as-is; a target
resolving to the application origin (scheme and host) is used as-is; a
target resolving to a different origin is discarded in favour of the
configured default. -/
def validate_next (appScheme appHost dflt : String) (next : Option String) :
    String :=
  match next with
  | none => dflt
  | some s =>
    if s == "" then dflt
    else
      let t := parseTarget s
      match t.scheme, t.host with
      | none, none => s
      | _, _ =>
        if t.scheme == some appScheme && t.host == some appHost then s
        else dflt

/-! ## Helper lemmas -/

theorem map_id_of_mem {α : Type} (l : List α) (f : α → α)
    (h : ∀ a ∈ l, f a = a) : l.map f = l := by
  induction l with
  | nil => rfl
  | cons x xs ih =>
    simp only [List.map_cons, h x (by simp)]
    rw [ih (fun a ha => h a (by simp [ha]))]

theorem countP_ext {α : Type} (l : List α) (p q : α → Bool)
    (h : ∀ a ∈ l, p a = q a) : l.countP p = l.countP q := by
  induction l with
  | nil => rfl
  | cons x xs ih =>
    rw [List.countP_cons, List.countP_cons, h x (by simp),
      ih (fun a ha => h a (by simp [ha]))]

/-- Every row of the upserted table that carries the upsert key holds the
upserted snapshot. -/
theorem uoc_key_data (store : List StoredPaymentIntent) (pid d : String) :
    ∀ r ∈ update_or_create store pid d, r.stripe_id = pid → r.data = d := by
  intro r hr hid
  unfold update_or_create at hr
  by_cases h : store.any (fun r => r.stripe_id == pid) = true
  · rw [if_pos h] at hr
    obtain ⟨a, ha, rfl⟩ := List.mem_map.mp hr
    by_cases hk : (a.stripe_id == pid) = true
    · simp [hk]
    · rw [if_neg hk] at hid ⊢
      exact absurd hid (by simpa using hk)
  · rw [if_neg h] at hr
    rcases List.mem_append.mp hr with h1 | h2
    · have hall := List.any_eq_false.mp (Bool.eq_false_iff.mpr h)
      exact absurd hid (by simpa using hall r h1)
    · have : r = { stripe_id := pid, data := d } := by simpa using h2
      rw [this]

/-- After an upsert, some row carries the upsert key. -/
theorem uoc_any (store : List StoredPaymentIntent) (pid d : String) :
    (update_or_create store pid d).any (fun r => r.stripe_id == pid) = true := by
  unfold update_or_create
  by_cases h : store.any (fun r => r.stripe_id == pid) = true
  · rw [if_pos h]
    rw [List.any_eq_true] at h ⊢
    obtain ⟨a, ha, hk⟩ := h
    refine ⟨_, List.mem_map_of_mem _ ha, ?_⟩
    simp [hk]
  · rw [if_neg h, List.any_eq_true]
    exact ⟨{ stripe_id := pid, data := d }, by simp, by simp⟩

/-- Upserting the same key and snapshot twice equals upserting once. -/
theorem uoc_idem (store : List StoredPaymentIntent) (pid d : String) :
    update_or_create (update_or_create store pid d) pid d
      = update_or_create store pid d := by
  conv_lhs => rw [update_or_create]
  rw [if_pos (uoc_any store pid d)]
  apply map_id_of_mem
  intro a ha
  by_cases hk : (a.stripe_id == pid) = true
  · rw [if_pos hk]
    have hd : a.data = d := uoc_key_data store pid d a ha (by simpa using hk)
    cases a
    simp_all
  · rw [if_neg hk]

/-- If the table held at most one row with the key, after the upsert it
holds exactly one. -/
theorem uoc_count (store : List StoredPaymentIntent) (pid d : String)
    (h : countId store pid ≤ 1) :
    countId (update_or_create store pid d) pid = 1 := by
  unfold countId update_or_create at *
  by_cases hany : store.any (fun r => r.stripe_id == pid) = true
  · rw [if_pos hany, List.countP_map]
    have heq : store.countP
        ((fun r => r.stripe_id == pid) ∘
          (fun r => if r.stripe_id == pid then { r with data := d } else r))
        = store.countP (fun r => r.stripe_id == pid) := by
      apply countP_ext
      intro a _
      by_cases hk : (a.stripe_id == pid) = true
      · simp [Function.comp, hk]
      · have hne : a.stripe_id ≠ pid := by simpa using hk
        simp [Function.comp, hne]
    rw [heq]
    have hpos : 0 < store.countP (fun r => r.stripe_id == pid) := by
      rw [List.countP_pos_iff]
      obtain ⟨a, ha, hk⟩ := List.any_eq_true.mp hany
      exact ⟨a, ha, hk⟩
    omega
  · rw [if_neg hany, List.countP_append]
    have h0 : store.countP (fun r => r.stripe_id == pid) = 0 := by
      rw [List.countP_eq_zero]
      have hall := List.any_eq_false.mp (Bool.eq_false_iff.mpr hany)
      intro a ha
      simpa using hall a ha
    simp [h0, List.countP_cons]

/-! ## Claim C4: webhook ingestion is an idempotent upsert -/

/-- Claim C4: webhook ingestion of payment-intent lifecycle events is an
idempotent upsert keyed by the provider's intent identifier. Starting
from a table with at most one row for the identifier (the database unique
key), delivering the same event twice equals delivering it once, leaves
exactly one row for the identifier, and that row's snapshot is the one
derived from the event payload. -/
theorem claim4_webhook_idempotent_upsert (store : List StoredPaymentIntent)
    (ev : StripeEvent) (piToDict : PaymentIntentObject → String)
    (hkey : countId store ev.object.id ≤ 1)
    (hty : strStartsWith ev.type "payment_intent." = true) :
    stripe_webhook (stripe_webhook store (Except.ok ev) piToDict).2
        (Except.ok ev) piToDict
      = stripe_webhook store (Except.ok ev) piToDict ∧
    countId (stripe_webhook store (Except.ok ev) piToDict).2 ev.object.id = 1 ∧
    (∀ r ∈ (stripe_webhook store (Except.ok ev) piToDict).2,
      r.stripe_id = ev.object.id → r.data = piToDict ev.object) := by
  simp only [stripe_webhook, hty, if_true]
  exact ⟨by rw [uoc_idem], uoc_count store _ _ hkey, uoc_key_data store _ _⟩

def sampleEvent : StripeEvent :=
  { type := "payment_intent.succeeded"
    object := { id := "pi_1", payload := "amount=4250" } }

def samplePiToDict : PaymentIntentObject → String := fun o => o.payload

theorem claim4_webhook_idempotent_upsert_witness :
    countId [] sampleEvent.object.id ≤ 1 ∧
    strStartsWith sampleEvent.type "payment_intent." = true ∧
    stripe_webhook (stripe_webhook [] (Except.ok sampleEvent) samplePiToDict).2
        (Except.ok sampleEvent) samplePiToDict
      = stripe_webhook [] (Except.ok sampleEvent) samplePiToDict ∧
    countId (stripe_webhook [] (Except.ok sampleEvent) samplePiToDict).2
        sampleEvent.object.id = 1 :=
  ⟨by decide, by decide,
   (claim4_webhook_idempotent_upsert [] sampleEvent samplePiToDict
     (by decide) (by decide)).1,
   (claim4_webhook_idempotent_upsert [] sampleEvent samplePiToDict
     (by decide) (by decide)).2.1⟩

/-! ## Claim C5: webhook rejects unverifiable requests without effect -/

/-- Claim C5: when body or signature verification fails, the webhook
endpoint answers with the client-error status 400 and the PaymentIntent
table is returned unchanged: no record is created or modified. -/
theorem claim5_webhook_error_no_state_change (store : List StoredPaymentIntent)
    (msg : String) (piToDict : PaymentIntentObject → String) :
    stripe_webhook store (Except.error msg) piToDict = (400, store) := rfl

/-! ## Claim C6: webhook ignores foreign event types with a 200 -/

/-- Claim C6: a verified event whose type does not start with the
payment-intent prefix is answered with the success status 200 and the
PaymentIntent table is returned unchanged. -/
theorem claim6_webhook_ignores_other_events (store : List StoredPaymentIntent)
    (ev : StripeEvent) (piToDict : PaymentIntentObject → String)
    (hty : strStartsWith ev.type "payment_intent." = false) :
    stripe_webhook store (Except.ok ev) piToDict = (200, store) := by
  simp [stripe_webhook, hty]

def sampleForeignEvent : StripeEvent :=
  { type := "customer.created"
    object := { id := "pi_2", payload := "unused" } }

theorem claim6_webhook_ignores_other_events_witness :
    strStartsWith sampleForeignEvent.type "payment_intent." = false ∧
    stripe_webhook [] (Except.ok sampleForeignEvent) samplePiToDict = (200, []) :=
  ⟨by decide,
   claim6_webhook_ignores_other_events [] sampleForeignEvent samplePiToDict
     (by decide)⟩

/-! ## Claim C8: format_total -/

/-- Claim C8: the usd vector and the unsupported-currency error hold as
specified, but at the eur failing input the code renders the literal
three-character sequence found in the source bytes (the euro sign twice
UTF-8 encoded), not the plain euro sign the claim states. -/
theorem claim8_format_total_failing_input :
    format_total 4250 "eur" = Except.ok "42.50 â‚¬" ∧
    "42.50 â‚¬" ≠ "42.50 €" ∧
    format_total 999 "usd" = Except.ok "9.99 $" ∧
    format_total 100 "gbp" = Except.error "unknown currency gbp" := by
  refine ⟨rfl, by decide, rfl, rfl⟩

/-! ## Claim C9: format_description -/

/-- Claim C9: a line with a provider-supplied description renders it
unchanged; a subscription line without one synthesizes
quantity x plan-name (period-start - period-end); and the function errors
exactly when the line has no description and is not a subscription line. -/
theorem claim9_format_description_cases (fmtDate : Nat → String)
    (line : InvoiceLine) :
    (∀ d, line.description = some d →
      format_description fmtDate line = Except.ok d) ∧
    (line.description = none → line.type = "subscription" →
      format_description fmtDate line =
        Except.ok (toString line.quantity ++ " x " ++ line.plan.name ++ " (" ++
          fmtDate line.period_start ++ " - " ++ fmtDate line.period_end ++ ")")) ∧
    ((format_description fmtDate line).isOk = false ↔
      line.description = none ∧ line.type ≠ "subscription") := by
  refine ⟨?_, ?_, ?_⟩
  · intro d hd
    simp [format_description, hd]
  · intro hd hty
    simp [format_description, hd, hty]
  · unfold format_description
    cases hd : line.description with
    | some d =>
      simp only [hd]
      simp [Except.isOk, Except.toBool]
    | none =>
      by_cases hty : line.type = "subscription"
      · simp only [hty]
        simp [Except.isOk, Except.toBool]
      · have hb : (line.type == "subscription") = false := by simpa using hty
        simp only [hb, if_false, Bool.false_eq_true]
        simp [Except.isOk, Except.toBool, hty]

def sampleDateFormat : Nat → String := fun n => toString n

def lineWithDescription : InvoiceLine :=
  { description := some "Annual invoice item", type := "invoiceitem"
    plan := { name := "Contributor" }, period_start := 0, period_end := 0
    quantity := 1 }

def lineSubscriptionNoDescription : InvoiceLine :=
  { description := none, type := "subscription"
    plan := { name := "Patron" }, period_start := 10, period_end := 20
    quantity := 2 }

def lineInvalid : InvoiceLine :=
  { description := none, type := "invoiceitem"
    plan := { name := "Patron" }, period_start := 10, period_end := 20
    quantity := 2 }

theorem claim9_format_description_cases_witness :
    format_description sampleDateFormat lineWithDescription
      = Except.ok "Annual invoice item" ∧
    format_description sampleDateFormat lineSubscriptionNoDescription
      = Except.ok "2 x Patron (10 - 20)" ∧
    (format_description sampleDateFormat lineInvalid).isOk = false :=
  ⟨(claim9_format_description_cases sampleDateFormat lineWithDescription).1
     "Annual invoice item" rfl,
   (claim9_format_description_cases sampleDateFormat
     lineSubscriptionNoDescription).2.1 rfl rfl,
   (claim9_format_description_cases sampleDateFormat lineInvalid).2.2.mpr
     ⟨rfl, by decide⟩⟩

/-! ## Claim C7: total tier lookup -/

/-- Claim C7: get_tier_from_stripe_id is total (it is a function into
String and returns the sentinel "Unknown" off the mapping, never failing);
on each legacy alias and each configured product identifier it returns
that identifier's tier code. The hypotheses state that the configuration
does not bind one tier's identifier to another tier's current or legacy
identifier. -/
theorem claim7_get_tier_from_stripe_id_total (cfg : TierField.StripeSettings)
    (hcp : cfg.STRIPE_CONTRIBUTOR_PRODUCT_ID ≠ cfg.STRIPE_PATRON_PRODUCT_ID)
    (hcs : cfg.STRIPE_CONTRIBUTOR_PRODUCT_ID ≠ cfg.STRIPE_STARTER_PRODUCT_ID)
    (hps : cfg.STRIPE_PATRON_PRODUCT_ID ≠ cfg.STRIPE_STARTER_PRODUCT_ID)
    (h1 : cfg.STRIPE_PATRON_PRODUCT_ID ≠ "contributor-membership")
    (h2 : cfg.STRIPE_STARTER_PRODUCT_ID ≠ "contributor-membership")
    (h3 : cfg.STRIPE_CONTRIBUTOR_PRODUCT_ID ≠ "patron-membership")
    (h4 : cfg.STRIPE_STARTER_PRODUCT_ID ≠ "patron-membership")
    (h5 : cfg.STRIPE_CONTRIBUTOR_PRODUCT_ID ≠ "starter-membership")
    (h6 : cfg.STRIPE_PATRON_PRODUCT_ID ≠ "starter-membership") :
    TierField.get_tier_from_stripe_id cfg "contributor-membership"
      = TierField.CONTRIBUTOR ∧
    TierField.get_tier_from_stripe_id cfg "patron-membership"
      = TierField.PATRON ∧
    TierField.get_tier_from_stripe_id cfg "starter-membership"
      = TierField.STARTER ∧
    TierField.get_tier_from_stripe_id cfg cfg.STRIPE_CONTRIBUTOR_PRODUCT_ID
      = TierField.CONTRIBUTOR ∧
    TierField.get_tier_from_stripe_id cfg cfg.STRIPE_PATRON_PRODUCT_ID
      = TierField.PATRON ∧
    TierField.get_tier_from_stripe_id cfg cfg.STRIPE_STARTER_PRODUCT_ID
      = TierField.STARTER ∧
    ∀ s : String, (∀ p ∈ TierField.STRIPE_ID_TO_TIER cfg, p.1 ≠ s) →
      TierField.get_tier_from_stripe_id cfg s = "Unknown" := by
  have hcp' := Ne.symm hcp
  have hcs' := Ne.symm hcs
  have hps' := Ne.symm hps
  have h1' := Ne.symm h1
  have h2' := Ne.symm h2
  have h3' := Ne.symm h3
  have h4' := Ne.symm h4
  have h5' := Ne.symm h5
  have h6' := Ne.symm h6
  refine ⟨?_, ?_, ?_, ?_, ?_, ?_, ?_⟩
  · simp [TierField.get_tier_from_stripe_id, TierField.dictGet,
      TierField.STRIPE_ID_TO_TIER, List.foldl, h1, h2]
  · simp [TierField.get_tier_from_stripe_id, TierField.dictGet,
      TierField.STRIPE_ID_TO_TIER, List.foldl, h3, h4]
  · simp [TierField.get_tier_from_stripe_id, TierField.dictGet,
      TierField.STRIPE_ID_TO_TIER, List.foldl, h5, h6]
  · simp [TierField.get_tier_from_stripe_id, TierField.dictGet,
      TierField.STRIPE_ID_TO_TIER, List.foldl, hcp', hcs']
  · simp [TierField.get_tier_from_stripe_id, TierField.dictGet,
      TierField.STRIPE_ID_TO_TIER, List.foldl, hcp, hps']
  · simp [TierField.get_tier_from_stripe_id, TierField.dictGet,
      TierField.STRIPE_ID_TO_TIER, List.foldl, hcs, hps]
  · intro s hs
    have n1 : "contributor-membership" ≠ s :=
      hs ("contributor-membership", TierField.CONTRIBUTOR)
        (by simp [TierField.STRIPE_ID_TO_TIER])
    have n2 : "patron-membership" ≠ s :=
      hs ("patron-membership", TierField.PATRON)
        (by simp [TierField.STRIPE_ID_TO_TIER])
    have n3 : "starter-membership" ≠ s :=
      hs ("starter-membership", TierField.STARTER)
        (by simp [TierField.STRIPE_ID_TO_TIER])
    have n4 : cfg.STRIPE_CONTRIBUTOR_PRODUCT_ID ≠ s :=
      hs (cfg.STRIPE_CONTRIBUTOR_PRODUCT_ID, TierField.CONTRIBUTOR)
        (by simp [TierField.STRIPE_ID_TO_TIER])
    have n5 : cfg.STRIPE_PATRON_PRODUCT_ID ≠ s :=
      hs (cfg.STRIPE_PATRON_PRODUCT_ID, TierField.PATRON)
        (by simp [TierField.STRIPE_ID_TO_TIER])
    have n6 : cfg.STRIPE_STARTER_PRODUCT_ID ≠ s :=
      hs (cfg.STRIPE_STARTER_PRODUCT_ID, TierField.STARTER)
        (by simp [TierField.STRIPE_ID_TO_TIER])
    simp [TierField.get_tier_from_stripe_id, TierField.dictGet,
      TierField.STRIPE_ID_TO_TIER, List.foldl, n1, n2, n3, n4, n5, n6]

def sampleSettings : TierField.StripeSettings :=
  { STRIPE_CONTRIBUTOR_PRODUCT_ID := "prod_contributor_2024"
    STRIPE_PATRON_PRODUCT_ID := "prod_patron_2024"
    STRIPE_STARTER_PRODUCT_ID := "prod_starter_2024" }

theorem claim7_get_tier_from_stripe_id_total_witness :
    TierField.get_tier_from_stripe_id sampleSettings "contributor-membership"
      = TierField.CONTRIBUTOR ∧
    TierField.get_tier_from_stripe_id sampleSettings "patron-membership"
      = TierField.PATRON ∧
    TierField.get_tier_from_stripe_id sampleSettings "starter-membership"
      = TierField.STARTER ∧
    TierField.get_tier_from_stripe_id sampleSettings "prod_contributor_2024"
      = TierField.CONTRIBUTOR ∧
    TierField.get_tier_from_stripe_id sampleSettings "prod_patron_2024"
      = TierField.PATRON ∧
    TierField.get_tier_from_stripe_id sampleSettings "prod_starter_2024"
      = TierField.STARTER ∧
    TierField.get_tier_from_stripe_id sampleSettings "prod_unrelated"
      = "Unknown" := by
  have h := claim7_get_tier_from_stripe_id_total sampleSettings
    (by decide) (by decide) (by decide) (by decide) (by decide) (by decide)
    (by decide) (by decide) (by decide)
  exact ⟨h.1, h.2.1, h.2.2.1, h.2.2.2.1, h.2.2.2.2.1, h.2.2.2.2.2.1,
    h.2.2.2.2.2.2 "prod_unrelated" (by decide)⟩

/-! ## Claim C2: starter-tier selection -/

def emptySignupState : SignupState := { memberships := [], subscriptions := [] }

/-- Claim C2 counterexample: selecting the starter tier does make a
payment-provider API call — form_valid creates the provider customer
before the tier branch — so the run's provider-call trace is not empty. -/
theorem claim2_counterexample_customer_call :
    (form_valid emptySignupState 1 TierField.STARTER 0
      (some "cus_1", none)).providerCalls = [ProviderCall.createCustomer] ∧
    (form_valid emptySignupState 1 TierField.STARTER 0
      (some "cus_1", none)).providerCalls ≠ [] := by
  decide

/-- Claim C2 (amended): when the user selects the starter tier and customer
creation succeeds, an active SubscriptionInformation is created
synchronously at that moment; a customer-creation provider call is made
(as for every tier), but no checkout interaction with the provider
occurs. -/
theorem claim2_starter_subscription_synchronous (st : SignupState)
    (alumni : Nat) (now : Int) (customer : Option String) :
    (form_valid st alumni TierField.STARTER now (customer, none)).state.subscriptions
      = st.subscriptions ++ [create_starter_subscription alumni now] ∧
    specActive now (create_starter_subscription alumni now) = true ∧
    (form_valid st alumni TierField.STARTER now (customer, none)).providerCalls
      = [ProviderCall.createCustomer] := by
  refine ⟨?_, ?_, ?_⟩
  · simp [form_valid]
  · simp [specActive, create_starter_subscription]
  · simp [form_valid]

/-! ## Claim C10: provider error during tier selection -/

/-- Claim C10: when customer creation returns an error, form_valid attaches
the fixed generic message (independent of the provider's error text),
returns None, and leaves the local state unchanged: no membership row and
no subscription row is written. -/
theorem claim10_signup_provider_error (st : SignupState) (alumni : Nat)
    (tier : String) (now : Int) (customer : Option String) (err : String) :
    form_valid st alumni tier now (customer, some err)
      = { result := none
          formErrors := [providerErrorMessage]
          state := st
          providerCalls := [ProviderCall.createCustomer] } := rfl

/-! ## Claim C3: reconciliation short-circuit -/

def openEndedSubscription : SubscriptionInformation :=
  { member := 1, start := some 0, end_ := none, tier := TierField.STARTER }

/-- Claim C3 counterexample: a locally stored open-ended record (end null,
start ≤ now) is active in the spec's sense, yet should_setup_component
does not short-circuit on it: the local query excludes null ends, so the
provider sync is called — and here, with the provider returning nothing,
the component is even reported as needing setup. -/
theorem claim3_counterexample_open_ended_local :
    specActive 1 openEndedSubscription = true ∧
    should_setup_component [openEndedSubscription] 1 none = (true, 1) := by
  decide

/-- Claim C3 (amended): the local short-circuit recognizes only fully
bounded windows: if some locally stored row has non-null start and end
with start ≤ now ≤ end, the result is false with no provider call.
Otherwise — even when a locally stored open-ended row is active in the
spec's sense — the provider sync is called exactly once and its result
re-evaluated: the result is false iff the synced record exists, has a
non-null start ≤ now, and a null or not-yet-past end. -/
theorem claim3_reconciliation_decision (subs : List SubscriptionInformation)
    (now : Int) (syncResult : Option SubscriptionInformation) :
    (subs.any (djangoWindowFilter now) = true →
      should_setup_component subs now syncResult = (false, 0)) ∧
    (subs.any (djangoWindowFilter now) = false →
      (should_setup_component subs now syncResult).2 = 1 ∧
      ((should_setup_component subs now syncResult).1 = false ↔
        ∃ s, syncResult = some s ∧ syncedActive now s = true)) := by
  constructor
  · intro h
    simp [should_setup_component, h]
  · intro h
    cases syncResult with
    | none => simp [should_setup_component, h]
    | some s =>
      by_cases hs : syncedActive now s = true
      · simp [should_setup_component, h, hs]
      · simp [should_setup_component, h, hs]

def boundedSubscription : SubscriptionInformation :=
  { member := 1, start := some 0, end_ := some 10, tier := TierField.CONTRIBUTOR }

theorem claim3_reconciliation_decision_witness :
    [boundedSubscription].any (djangoWindowFilter 5) = true ∧
    should_setup_component [boundedSubscription] 5 none = (false, 0) ∧
    ([] : List SubscriptionInformation).any (djangoWindowFilter 5) = false ∧
    (should_setup_component [] 5 (some boundedSubscription)).2 = 1 ∧
    (should_setup_component [] 5 (some boundedSubscription)).1 = false := by
  refine ⟨by decide, ?_, by decide, ?_, ?_⟩
  · exact (claim3_reconciliation_decision [boundedSubscription] 5 none).1
      (by decide)
  · exact ((claim3_reconciliation_decision [] 5
      (some boundedSubscription)).2 (by decide)).1
  · exact ((claim3_reconciliation_decision [] 5
      (some boundedSubscription)).2 (by decide)).2.mpr
      ⟨boundedSubscription, rfl, by decide⟩

/-! ## Claim C1: login-redirect validation -/

/-- A resolved target either carries no scheme and no host (a bare path)
or carries both. -/
theorem parseTarget_scheme_host (s : String) :
    ((parseTarget s).scheme = none ∧ (parseTarget s).host = none) ∨
    ((parseTarget s).scheme ≠ none ∧ (parseTarget s).host ≠ none) := by
  unfold parseTarget
  cases splitSchemeAux s.toList with
  | none => exact Or.inl ⟨rfl, rfl⟩
  | some p =>
    cases p with
    | mk sch tail => exact Or.inr ⟨by simp, by simp⟩

/-- Claim C1: an absent or empty next parameter redirects to the configured
default; a bare path (no scheme, no host) redirects to exactly that path;
a target that resolves to a different origin than the application
redirects to the configured default, never to the external host. -/
theorem claim1_login_redirect_validation (appScheme appHost dflt : String) :
    validate_next appScheme appHost dflt none = dflt ∧
    validate_next appScheme appHost dflt (some "") = dflt ∧
    (∀ s : String, s ≠ "" → (parseTarget s).scheme = none →
      (parseTarget s).host = none →
      validate_next appScheme appHost dflt (some s) = s) ∧
    (∀ s : String, (parseTarget s).scheme ≠ none →
      ¬((parseTarget s).scheme = some appScheme ∧
        (parseTarget s).host = some appHost) →
      validate_next appScheme appHost dflt (some s) = dflt) := by
  refine ⟨rfl, rfl, ?_, ?_⟩
  · intro s hne hsc hh
    have hb : (s == "") = false := by simpa using hne
    simp [validate_next, hb, hsc, hh]
  · intro s hsc hnot
    have hne : s ≠ "" := by
      intro he
      rw [he] at hsc
      exact hsc rfl
    have hb : (s == "") = false := by simpa using hne
    rcases parseTarget_scheme_host s with ⟨h1, _⟩ | ⟨_, h2⟩
    · exact absurd h1 hsc
    · cases hs : (parseTarget s).scheme with
      | none => exact absurd hs hsc
      | some a =>
        cases hh : (parseTarget s).host with
        | none => exact absurd hh h2
        | some b =>
          rw [hs, hh] at hnot
          simp only [validate_next, hb, Bool.false_eq_true, if_false]
          rw [hs, hh]
          have hcond : ((some a == some appScheme) &&
              (some b == some appHost)) = false := by
            by_cases ha : a = appScheme
            · have hbneq : b ≠ appHost := by
                intro hbq
                exact hnot ⟨by rw [ha], by rw [hbq]⟩
              simp [ha, hbneq]
            · simp [ha]
          rw [hcond]
          simp

theorem claim1_login_redirect_validation_witness :
    validate_next "https" "members.example.org" "/portal/" none = "/portal/" ∧
    validate_next "https" "members.example.org" "/portal/" (some "") = "/portal/" ∧
    validate_next "https" "members.example.org" "/portal/" (some "/payments/")
      = "/payments/" ∧
    validate_next "https" "members.example.org" "/portal/"
      (some "https://evil.com/x") = "/portal/" := by
  have h := claim1_login_redirect_validation "https" "members.example.org"
    "/portal/"
  refine ⟨h.1, h.2.1, ?_, ?_⟩
  · exact h.2.2.1 "/payments/" (by decide) (by decide) (by decide)
  · exact h.2.2.2 "https://evil.com/x" (by decide) (by decide)
